import Mathlib

/-!
Verification development for the pico-pitch pipeline.

Shallow embedding of the core pure logic of the repository:
`src/utils/evidence_aggregator.py`, `src/gemini_core.py`,
`src/analyzers/lead_analyzer.py`, `src/analyzers/theme_analyzer.py` and the
orchestration functions `find_and_create_themed_opportunities` and
`validate_and_update_opportunity` from `src/orchestrator.py`.

Modelling conventions:
- Python `dict.get(key, default)` is modelled by `Option` fields read with
  `Option.getD`.
- Python string truthiness (`if s:`) is `strTruthy` / a `≠ ""` test.
- Python dictionaries used as histograms are modelled as functions
  `String → Nat` (initial keys with value 0 coincide with the everywhere-zero
  function; only the counts are observable in the claims).
- Floating point percentages are modelled over `ℚ`, with Python's
  banker's rounding `round(x, 1)` modelled by `pyRound1`.
- Provider (LLM) calls are modelled by scripted responses passed as explicit
  arguments; a call either raises, parses to a value, or fails to parse.
-/

namespace PicoPitch

/-- Python truthiness of an optional string: `None` and `""` are falsy. -/
def strTruthy : Option String → Bool
  | none => false
  | some s => s != ""

/-- Python `str.lower()`, computed on the underlying character list. -/
def strLower (s : String) : String :=
  String.mk (s.data.map Char.toLower)

/-- Does `pat` occur as a prefix of `hay`? (Helper for the substring test.) -/
def charsPrefOf : List Char → List Char → Bool
  | [], _ => true
  | _ :: _, [] => false
  | c :: cs, d :: ds => c == d && charsPrefOf cs ds

/-- Does `pat` occur as a contiguous substring of `hay`? -/
def charsSub : List Char → List Char → Bool
  | [], pat => pat.isEmpty
  | c :: rest, pat => charsPrefOf pat (c :: rest) || charsSub rest pat

/-- Python `pat in hay` substring test, on the underlying character lists. -/
def containsSub (hay pat : String) : Bool :=
  charsSub hay.data pat.data

/-- Python `str.strip()`: drop leading and trailing whitespace, computed on
the underlying character list. -/
def strStrip (s : String) : String :=
  String.mk (((s.data.dropWhile Char.isWhitespace).reverse.dropWhile Char.isWhitespace).reverse)

/-- Round a rational to the nearest integer, ties to even — the rounding mode
of Python's builtin `round`. -/
def pyRoundHalfEven (x : ℚ) : ℤ :=
  let f : ℤ := ⌊x⌋
  let r : ℚ := x - (f : ℚ)
  if r < 1 / 2 then f
  else if 1 / 2 < r then f + 1
  else if f % 2 = 0 then f else f + 1

/-- Python `round(x, 1)`: round to one decimal place, ties to even. -/
def pyRound1 (x : ℚ) : ℚ :=
  (pyRoundHalfEven (x * 10) : ℚ) / 10

/-! ## Data shapes for extraction results (`ExtractionResult` in the spec)

These mirror the JSON dictionaries produced by the extraction prompts and
consumed by `src/utils/evidence_aggregator.py`. -/

/-- A supporting quote dictionary `{text, context}`. -/
structure Quote where
  text : Option String
  context : Option String
deriving DecidableEq, Repr

/-- An element of a `supporting_quotes` list. The aggregator checks
`isinstance(quote, dict)` and skips non-dict entries, so we keep a
non-dict constructor. -/
inductive QuoteItem where
  | dict (q : Quote)
  | nonDict
deriving DecidableEq, Repr

/-- The `financial_indicators` sub-dictionary. -/
structure Financial where
  amounts_mentioned : Option (List String)
  willing_to_pay : Option String
  cost_of_problem : Option String
deriving DecidableEq, Repr

/-- The empty `financial_indicators` dictionary (all keys missing). -/
def Financial.empty : Financial :=
  ⟨none, none, none⟩

/-- A parsed extraction-analysis dictionary. A `none` field is a missing key.
`financial_indicators` is `none` both when the key is missing and when it is
an empty dict: Python guards it with `if financial:`, which treats both the
same, and `{}.get(k, d) = d` like a missing key. -/
structure Analysis where
  problem_summary : Option String
  problem_domain : Option String
  urgency_level : Option String
  supporting_quotes : Option (List QuoteItem)
  financial_indicators : Option Financial
  saas_potential_flag : Option String
  source_url : Option String
deriving DecidableEq, Repr

/-- The empty analysis dictionary, default of `lead.get('analysis', {})`. -/
def Analysis.empty : Analysis :=
  ⟨none, none, none, none, none, none, none⟩

/-- A record of the list passed to `aggregate_evidence_for_opportunity`
(built in `find_and_create_themed_opportunities`, orchestrator lines
282–310). -/
structure AggLead where
  permalink : Option String
  content : Option String
  title : Option String
  subreddit : Option String
  author : Option String
  is_comment : Option Bool
  analysis : Option Analysis
deriving DecidableEq, Repr

/-! ## The evidence aggregator (`src/utils/evidence_aggregator.py`) -/

/-- A flattened supporting-quote entry of the dossier (lines 58–65). -/
structure QuoteOut where
  text : String
  context : String
  source : String
  reddit_url : String
  author : String
  subreddit : String
deriving DecidableEq, Repr

/-- A provenance-rich `source_posts` entry (lines 40–51). -/
structure SourcePost where
  reddit_url : String
  permalink : String
  title : String
  subreddit : String
  author : String
  is_comment : Bool
  problem_summary : String
  urgency_level : String
  financial_impact : String
  supporting_quotes : List QuoteItem
deriving DecidableEq, Repr

/-- The aggregated evidence dossier (`EvidenceDossier` in the spec).
Histograms are count functions; the Python dicts pre-seed some keys with 0,
which is indistinguishable from the zero function at the level of counts. -/
@[ext]
structure Evidence where
  total_posts_analyzed : Nat
  supporting_quotes : List QuoteOut
  amounts_mentioned : List String
  willing_to_pay_counts : String → Nat
  total_cost_of_problems : List String
  urgency_distribution : String → Nat
  competitor_mentions : String → Nat
  pain_point_frequency : Nat
  source_links : List String
  source_posts : List SourcePost
  pain_point_percentage : ℚ

/-- Increment a histogram at a key: the net effect of
`d[k] = d.get(k, 0) + 1` (with optional key creation). -/
def bump (h : String → Nat) (k : String) : String → Nat :=
  Function.update h k (h k + 1)

/-- The fixed competitor keyword list (line 94). -/
def competitors : List String :=
  ["upwork", "toptal", "fiverr", "freelancer", "guru", "99designs"]

/-- The initial dossier (lines 14–27): all counters zero, all lists empty,
`total_posts_analyzed` set to the input length. -/
def initEvidence (n : Nat) : Evidence where
  total_posts_analyzed := n
  supporting_quotes := []
  amounts_mentioned := []
  willing_to_pay_counts := fun _ => 0
  total_cost_of_problems := []
  urgency_distribution := fun _ => 0
  competitor_mentions := fun _ => 0
  pain_point_frequency := 0
  source_links := []
  source_posts := []
  pain_point_percentage := 0

/-- The `source_posts` entry built for one lead (lines 40–51). -/
def mkSourcePost (lead : AggLead) (analysis : Analysis) : SourcePost where
  reddit_url := "https://reddit.com" ++ lead.permalink.getD ""
  permalink := lead.permalink.getD ""
  title := lead.title.getD "Untitled"
  subreddit := lead.subreddit.getD "unknown"
  author := lead.author.getD "[deleted]"
  is_comment := lead.is_comment.getD false
  problem_summary := analysis.problem_summary.getD ""
  urgency_level := analysis.urgency_level.getD "Low"
  financial_impact := (analysis.financial_indicators.getD Financial.empty).cost_of_problem.getD ""
  supporting_quotes := analysis.supporting_quotes.getD []

/-- The flattened quote entry built for one dict-quote (lines 58–65). -/
def mkQuoteOut (q : Quote) (lead : AggLead) : QuoteOut where
  text := q.text.getD ""
  context := q.context.getD ""
  source := lead.permalink.getD ""
  reddit_url := if strTruthy lead.permalink then "https://reddit.com" ++ lead.permalink.getD "" else ""
  author := lead.author.getD "[deleted]"
  subreddit := lead.subreddit.getD "unknown"

/-- The competitor-mention scan (lines 92–97): for each keyword of the fixed
list, increment its counter when it occurs in the lowercased text. -/
def compFold (text : String) : List String → Evidence → Evidence
  | [], ev => ev
  | c :: cs, ev =>
      compFold text cs
        (if containsSub text c then
          { ev with competitor_mentions := bump ev.competitor_mentions c }
        else ev)

/-- One iteration of the aggregation loop (lines 29–97) for one lead. -/
def aggStep (ev : Evidence) (lead : AggLead) : Evidence :=
  let analysis := lead.analysis.getD Analysis.empty
  if strLower (analysis.problem_summary.getD "") == "no clear problem" then ev
  else
    let ev1 := { ev with pain_point_frequency := ev.pain_point_frequency + 1 }
    let ev2 := if strTruthy lead.permalink then
        { ev1 with source_posts := ev1.source_posts ++ [mkSourcePost lead analysis] }
      else ev1
    let quotes := analysis.supporting_quotes.getD []
    let ev3 := { ev2 with supporting_quotes :=
        ev2.supporting_quotes ++ quotes.filterMap (fun qi =>
          match qi with
          | QuoteItem.dict q => some (mkQuoteOut q lead)
          | QuoteItem.nonDict => none) }
    let ev4 := match analysis.financial_indicators with
      | some fin =>
        let ev4a := { ev3 with
            amounts_mentioned := ev3.amounts_mentioned ++ fin.amounts_mentioned.getD [] }
        let ev4b := { ev4a with
            willing_to_pay_counts := bump ev4a.willing_to_pay_counts (fin.willing_to_pay.getD "Unknown") }
        let cost := fin.cost_of_problem.getD ""
        if cost ≠ "" then
          { ev4b with total_cost_of_problems := ev4b.total_cost_of_problems ++ [cost] }
        else ev4b
      | none => ev3
    let ev5 := { ev4 with
        urgency_distribution := bump ev4.urgency_distribution (analysis.urgency_level.getD "Low") }
    let ev6 := if strTruthy lead.permalink then
        { ev5 with source_links := ev5.source_links ++ [lead.permalink.getD ""] }
      else ev5
    compFold (strLower (lead.content.getD "")) competitors ev6

/-- The aggregation for-loop over all leads. -/
def aggLoop : List AggLead → Evidence → Evidence
  | [], ev => ev
  | lead :: rest, ev => aggLoop rest (aggStep ev lead)

/-- `aggregate_evidence_for_opportunity` (lines 4–107): run the loop from the
initial dossier, then fill in `pain_point_percentage` (lines 99–105). -/
def aggregate_evidence_for_opportunity (leads_data : List AggLead) : Evidence :=
  let ev := aggLoop leads_data (initEvidence leads_data.length)
  if 0 < ev.total_posts_analyzed then
    { ev with pain_point_percentage :=
        pyRound1 (((ev.pain_point_frequency : ℚ) / (ev.total_posts_analyzed : ℚ)) * 100) }
  else
    { ev with pain_point_percentage := 0 }

/-! ## Characterization of the aggregator

Per-lead contribution functions and lemmas expressing each dossier field as a
count / concatenation over the input list. These are the proof layer; the
executable embedding above is the authority. -/

/-- The analysis dictionary of a lead, `lead.get('analysis', {})`. -/
def analysisOf (l : AggLead) : Analysis :=
  l.analysis.getD Analysis.empty

/-- Is the lead kept (not skipped by the "no clear problem" sentinel)? -/
def keepB (l : AggLead) : Bool :=
  !(strLower ((analysisOf l).problem_summary.getD "") == "no clear problem")

/-- The `source_posts` entries contributed by one lead. -/
def spContrib (l : AggLead) : List SourcePost :=
  if keepB l then
    (if strTruthy l.permalink then [mkSourcePost l (analysisOf l)] else [])
  else []

/-- The flattened quotes contributed by one lead. -/
def quoteContrib (l : AggLead) : List QuoteOut :=
  if keepB l then
    ((analysisOf l).supporting_quotes.getD []).filterMap (fun qi =>
      match qi with
      | QuoteItem.dict q => some (mkQuoteOut q l)
      | QuoteItem.nonDict => none)
  else []

/-- The `amounts_mentioned` entries contributed by one lead. -/
def amountsContrib (l : AggLead) : List String :=
  if keepB l then
    match (analysisOf l).financial_indicators with
    | some fin => fin.amounts_mentioned.getD []
    | none => []
  else []

/-- The `total_cost_of_problems` entries contributed by one lead. -/
def costContrib (l : AggLead) : List String :=
  if keepB l then
    match (analysisOf l).financial_indicators with
    | some fin =>
      if fin.cost_of_problem.getD "" ≠ "" then [fin.cost_of_problem.getD ""] else []
    | none => []
  else []

/-- The `source_links` entries contributed by one lead. -/
def linkContrib (l : AggLead) : List String :=
  if keepB l then
    (if strTruthy l.permalink then [l.permalink.getD ""] else [])
  else []

/-- The contribution of one lead to the willing-to-pay count at key `k`. -/
def willingDelta (k : String) (l : AggLead) : Nat :=
  if keepB l then
    match (analysisOf l).financial_indicators with
    | some fin => if fin.willing_to_pay.getD "Unknown" = k then 1 else 0
    | none => 0
  else 0

/-- The contribution of one lead to the urgency count at key `k`. -/
def urgencyDelta (k : String) (l : AggLead) : Nat :=
  if keepB l then
    (if (analysisOf l).urgency_level.getD "Low" = k then 1 else 0)
  else 0

/-- The contribution of one lead to the competitor-mention count at key `k`. -/
def compDelta (k : String) (l : AggLead) : Nat :=
  if keepB l then
    competitors.countP (fun c => c == k && containsSub (strLower (l.content.getD "")) c)
  else 0

theorem bump_apply (h : String → Nat) (c k : String) :
    bump h c k = h k + (if c = k then 1 else 0) := by
  rw [bump, Function.update_apply]
  by_cases hk : k = c
  · subst hk
    simp
  · have h2 : ¬c = k := fun h3 => hk h3.symm
    simp [hk, h2]

theorem compFold_eq (text : String) :
    ∀ (cs : List String) (ev : Evidence), compFold text cs ev =
      { ev with competitor_mentions :=
          fun k => ev.competitor_mentions k + cs.countP (fun c => c == k && containsSub text c) } := by
  intro cs
  induction cs with
  | nil =>
    intro ev
    simp [compFold, List.countP_nil]
  | cons c cs ih =>
    intro ev
    rw [compFold, ih]
    by_cases hc : containsSub text c = true
    · simp only [hc, if_true]
      ext k
      all_goals simp only [bump_apply, List.countP_cons, hc, Bool.and_true, beq_iff_eq]
      by_cases hk : c = k <;> simp [hk] <;> omega
    · simp only [hc, Bool.false_eq_true, if_false]
      ext k
      all_goals simp [List.countP_cons, hc]

theorem aggStep_eq (ev : Evidence) (l : AggLead) : aggStep ev l =
    { ev with
      pain_point_frequency := ev.pain_point_frequency + (if keepB l then 1 else 0),
      source_posts := ev.source_posts ++ spContrib l,
      supporting_quotes := ev.supporting_quotes ++ quoteContrib l,
      amounts_mentioned := ev.amounts_mentioned ++ amountsContrib l,
      total_cost_of_problems := ev.total_cost_of_problems ++ costContrib l,
      source_links := ev.source_links ++ linkContrib l,
      willing_to_pay_counts := fun k => ev.willing_to_pay_counts k + willingDelta k l,
      urgency_distribution := fun k => ev.urgency_distribution k + urgencyDelta k l,
      competitor_mentions := fun k => ev.competitor_mentions k + compDelta k l } := by
  rw [aggStep]
  by_cases hkeep : keepB l = true
  · have hs : (strLower ((l.analysis.getD Analysis.empty).problem_summary.getD "") ==
        "no clear problem") = false := by
      have h1 := hkeep
      rw [keepB, analysisOf] at h1
      simpa using h1
    rw [if_neg (by simp [hs])]
    simp only [compFold_eq]
    by_cases hpl : strTruthy l.permalink = true
    all_goals rcases hfin : (l.analysis.getD Analysis.empty).financial_indicators with _ | fin
    case pos.none | neg.none =>
      ext
      all_goals
        simp [spContrib, quoteContrib, amountsContrib, costContrib, linkContrib,
          willingDelta, urgencyDelta, compDelta, hkeep, analysisOf, hfin, hpl, bump_apply]
    all_goals by_cases hcost : fin.cost_of_problem.getD "" = ""
    all_goals
      ext
      all_goals
        simp [spContrib, quoteContrib, amountsContrib, costContrib, linkContrib,
          willingDelta, urgencyDelta, compDelta, hkeep, analysisOf, hfin, hpl, hcost, bump_apply]
  · have hk : keepB l = false := by
      simpa using hkeep
    have hs : (strLower ((l.analysis.getD Analysis.empty).problem_summary.getD "") ==
        "no clear problem") = true := by
      have h1 := hk
      rw [keepB, analysisOf] at h1
      simpa using h1
    rw [if_pos (by simp [hs])]
    ext
    all_goals simp [spContrib, quoteContrib, amountsContrib, costContrib, linkContrib,
      willingDelta, urgencyDelta, compDelta, hk]

theorem aggLoop_eq : ∀ (ls : List AggLead) (ev : Evidence), aggLoop ls ev =
    { ev with
      pain_point_frequency := ev.pain_point_frequency + ls.countP keepB,
      source_posts := ev.source_posts ++ ls.flatMap spContrib,
      supporting_quotes := ev.supporting_quotes ++ ls.flatMap quoteContrib,
      amounts_mentioned := ev.amounts_mentioned ++ ls.flatMap amountsContrib,
      total_cost_of_problems := ev.total_cost_of_problems ++ ls.flatMap costContrib,
      source_links := ev.source_links ++ ls.flatMap linkContrib,
      willing_to_pay_counts := fun k => ev.willing_to_pay_counts k + (ls.map (willingDelta k)).sum,
      urgency_distribution := fun k => ev.urgency_distribution k + (ls.map (urgencyDelta k)).sum,
      competitor_mentions := fun k => ev.competitor_mentions k + (ls.map (compDelta k)).sum } := by
  intro ls
  induction ls with
  | nil =>
    intro ev
    ext
    all_goals simp [aggLoop]
  | cons l ls ih =>
    intro ev
    rw [aggLoop, aggStep_eq, ih]
    ext
    all_goals simp [List.countP_cons]
    · omega
    all_goals omega

theorem agg_total (ls : List AggLead) :
    (aggregate_evidence_for_opportunity ls).total_posts_analyzed = ls.length := by
  simp only [aggregate_evidence_for_opportunity]
  split
  all_goals simp [aggLoop_eq, initEvidence]

theorem agg_freq (ls : List AggLead) :
    (aggregate_evidence_for_opportunity ls).pain_point_frequency = ls.countP keepB := by
  simp only [aggregate_evidence_for_opportunity]
  split
  all_goals simp [aggLoop_eq, initEvidence]

theorem agg_source_posts (ls : List AggLead) :
    (aggregate_evidence_for_opportunity ls).source_posts = ls.flatMap spContrib := by
  simp only [aggregate_evidence_for_opportunity]
  split
  all_goals simp [aggLoop_eq, initEvidence]

theorem agg_quotes (ls : List AggLead) :
    (aggregate_evidence_for_opportunity ls).supporting_quotes = ls.flatMap quoteContrib := by
  simp only [aggregate_evidence_for_opportunity]
  split
  all_goals simp [aggLoop_eq, initEvidence]

theorem agg_amounts (ls : List AggLead) :
    (aggregate_evidence_for_opportunity ls).amounts_mentioned = ls.flatMap amountsContrib := by
  simp only [aggregate_evidence_for_opportunity]
  split
  all_goals simp [aggLoop_eq, initEvidence]

theorem agg_costs (ls : List AggLead) :
    (aggregate_evidence_for_opportunity ls).total_cost_of_problems = ls.flatMap costContrib := by
  simp only [aggregate_evidence_for_opportunity]
  split
  all_goals simp [aggLoop_eq, initEvidence]

theorem agg_links (ls : List AggLead) :
    (aggregate_evidence_for_opportunity ls).source_links = ls.flatMap linkContrib := by
  simp only [aggregate_evidence_for_opportunity]
  split
  all_goals simp [aggLoop_eq, initEvidence]

theorem agg_willing (ls : List AggLead) (k : String) :
    (aggregate_evidence_for_opportunity ls).willing_to_pay_counts k = (ls.map (willingDelta k)).sum := by
  simp only [aggregate_evidence_for_opportunity]
  split
  all_goals simp [aggLoop_eq, initEvidence]

theorem agg_urgency (ls : List AggLead) (k : String) :
    (aggregate_evidence_for_opportunity ls).urgency_distribution k = (ls.map (urgencyDelta k)).sum := by
  simp only [aggregate_evidence_for_opportunity]
  split
  all_goals simp [aggLoop_eq, initEvidence]

theorem agg_comp (ls : List AggLead) (k : String) :
    (aggregate_evidence_for_opportunity ls).competitor_mentions k = (ls.map (compDelta k)).sum := by
  simp only [aggregate_evidence_for_opportunity]
  split
  all_goals simp [aggLoop_eq, initEvidence]

theorem agg_pct (ls : List AggLead) :
    (aggregate_evidence_for_opportunity ls).pain_point_percentage =
      if 0 < ls.length then
        pyRound1 (((ls.countP keepB : ℚ) / (ls.length : ℚ)) * 100)
      else 0 := by
  have h1 : (aggLoop ls (initEvidence ls.length)).total_posts_analyzed = ls.length := by
    simp [aggLoop_eq, initEvidence]
  have h2 : (aggLoop ls (initEvidence ls.length)).pain_point_frequency = ls.countP keepB := by
    simp [aggLoop_eq, initEvidence]
  simp only [aggregate_evidence_for_opportunity]
  split
  case isTrue h =>
    simp only [h1, h2] at h ⊢
    rw [if_pos h]
  case isFalse h =>
    simp only [h1] at h
    rw [if_neg h]

/-! ## Claims C7, C8, C9 — the evidence aggregator -/

/-- The order-independence conclusion of claim C7 at a pair of input lists:
the counted fields agree exactly and the list-valued fields agree up to
permutation. -/
def aggPermInvariantAt (l₁ l₂ : List AggLead) : Prop :=
  (aggregate_evidence_for_opportunity l₁).total_posts_analyzed
      = (aggregate_evidence_for_opportunity l₂).total_posts_analyzed ∧
  (aggregate_evidence_for_opportunity l₁).pain_point_frequency
      = (aggregate_evidence_for_opportunity l₂).pain_point_frequency ∧
  (aggregate_evidence_for_opportunity l₁).pain_point_percentage
      = (aggregate_evidence_for_opportunity l₂).pain_point_percentage ∧
  (aggregate_evidence_for_opportunity l₁).willing_to_pay_counts
      = (aggregate_evidence_for_opportunity l₂).willing_to_pay_counts ∧
  (aggregate_evidence_for_opportunity l₁).urgency_distribution
      = (aggregate_evidence_for_opportunity l₂).urgency_distribution ∧
  (aggregate_evidence_for_opportunity l₁).competitor_mentions
      = (aggregate_evidence_for_opportunity l₂).competitor_mentions ∧
  (aggregate_evidence_for_opportunity l₁).supporting_quotes.Perm
      (aggregate_evidence_for_opportunity l₂).supporting_quotes ∧
  (aggregate_evidence_for_opportunity l₁).source_posts.Perm
      (aggregate_evidence_for_opportunity l₂).source_posts ∧
  (aggregate_evidence_for_opportunity l₁).amounts_mentioned.Perm
      (aggregate_evidence_for_opportunity l₂).amounts_mentioned ∧
  (aggregate_evidence_for_opportunity l₁).source_links.Perm
      (aggregate_evidence_for_opportunity l₂).source_links ∧
  (aggregate_evidence_for_opportunity l₁).total_cost_of_problems.Perm
      (aggregate_evidence_for_opportunity l₂).total_cost_of_problems

/-- C7: `aggregate_evidence_for_opportunity` is order-independent — permuting
the input records yields identical `total_posts_analyzed`,
`pain_point_frequency`, `pain_point_percentage` and identical counts in every
histogram (`willing_to_pay_counts`, `urgency_distribution`,
`competitor_mentions`); the list-valued fields (`supporting_quotes`,
`source_posts`, `amounts_mentioned`, `source_links`,
`total_cost_of_problems`) are permutations of each other. -/
theorem C7_aggregate_order_independent (l₁ l₂ : List AggLead) (hp : l₁.Perm l₂) :
    aggPermInvariantAt l₁ l₂ := by
  have htot := hp.length_eq
  have hfreq := hp.countP_eq keepB
  refine ⟨?_, ?_, ?_, ?_, ?_, ?_, ?_, ?_, ?_, ?_, ?_⟩
  · rw [agg_total, agg_total, htot]
  · rw [agg_freq, agg_freq, hfreq]
  · rw [agg_pct, agg_pct, htot, hfreq]
  · funext k
    rw [agg_willing, agg_willing, (hp.map (willingDelta k)).sum_eq]
  · funext k
    rw [agg_urgency, agg_urgency, (hp.map (urgencyDelta k)).sum_eq]
  · funext k
    rw [agg_comp, agg_comp, (hp.map (compDelta k)).sum_eq]
  · rw [agg_quotes, agg_quotes]
    exact hp.flatMap_right quoteContrib
  · rw [agg_source_posts, agg_source_posts]
    exact hp.flatMap_right spContrib
  · rw [agg_amounts, agg_amounts]
    exact hp.flatMap_right amountsContrib
  · rw [agg_links, agg_links]
    exact hp.flatMap_right linkContrib
  · rw [agg_costs, agg_costs]
    exact hp.flatMap_right costContrib

/-- A sample lead with full extraction data, used in concrete witnesses. -/
def sampleAnalysisA : Analysis :=
  { problem_summary := some "Fees are too high", problem_domain := some "Freelancing",
    urgency_level := some "High",
    supporting_quotes := some [QuoteItem.dict ⟨some "the fees are crazy", some "pricing"⟩],
    financial_indicators := some ⟨some ["$20"], some "Yes", some "$100/mo"⟩,
    saas_potential_flag := some "Yes", source_url := none }

/-- A sample lead with a permalink. -/
def sampleLeadA : AggLead :=
  { permalink := some "/r/freelance/1", content := some "I hate Upwork fees",
    title := some "fees", subreddit := some "freelance", author := some "u1",
    is_comment := some false, analysis := some sampleAnalysisA }

/-- A second sample lead, skipped by the sentinel. -/
def sampleLeadB : AggLead :=
  { permalink := some "/r/freelance/2", content := some "all good",
    title := some "ok", subreddit := some "freelance", author := some "u2",
    is_comment := some true,
    analysis := some { Analysis.empty with problem_summary := some "No Clear Problem" } }

/-- Witness for C7: the order-independence theorem applied to a concrete
two-element list and its swap. -/
theorem C7_aggregate_order_independent_witness :
    ([sampleLeadA, sampleLeadB].Perm [sampleLeadB, sampleLeadA]) ∧
      aggPermInvariantAt [sampleLeadA, sampleLeadB] [sampleLeadB, sampleLeadA] :=
  ⟨by decide, C7_aggregate_order_independent _ _ (by decide)⟩

/-- C8: whenever `total_posts_analyzed > 0`, the stored percentage is
`round(100 * pain_point_frequency / total_posts_analyzed, 1)`, and for the
empty input (`total_posts_analyzed = 0`) it is `0`. -/
theorem C8_percentage_formula (ls : List AggLead) :
    (0 < (aggregate_evidence_for_opportunity ls).total_posts_analyzed →
      (aggregate_evidence_for_opportunity ls).pain_point_percentage =
        pyRound1 ((100 * ((aggregate_evidence_for_opportunity ls).pain_point_frequency : ℚ)) /
          ((aggregate_evidence_for_opportunity ls).total_posts_analyzed : ℚ))) ∧
    ((aggregate_evidence_for_opportunity ls).total_posts_analyzed = 0 →
      (aggregate_evidence_for_opportunity ls).pain_point_percentage = 0) := by
  rw [agg_pct, agg_total, agg_freq]
  constructor
  · intro h
    rw [if_pos h]
    congr 1
    rw [div_mul_eq_mul_div, mul_comm]
  · intro h
    rw [if_neg (by omega)]

/-- Witness for C8: the percentage formula evaluated on a concrete
one-element input. -/
theorem C8_percentage_formula_witness :
    0 < (aggregate_evidence_for_opportunity [sampleLeadA]).total_posts_analyzed ∧
      (aggregate_evidence_for_opportunity [sampleLeadA]).pain_point_percentage =
        pyRound1 ((100 * ((aggregate_evidence_for_opportunity [sampleLeadA]).pain_point_frequency : ℚ)) /
          ((aggregate_evidence_for_opportunity [sampleLeadA]).total_posts_analyzed : ℚ)) :=
  ⟨by decide, (C8_percentage_formula [sampleLeadA]).1 (by decide)⟩

/-- A kept lead without a permalink: it increments `pain_point_frequency`
but contributes no `source_posts` entry (evidence_aggregator line 39 guards
the append with `if lead.get('permalink')`). -/
def leadNoPermalink : AggLead :=
  { permalink := none, content := some "", title := none, subreddit := none,
    author := none, is_comment := none,
    analysis := some { Analysis.empty with problem_summary := some "Cannot find clients" } }

/-- Counterexample to C9 as stated: a record that passes the sentinel check
but has no permalink increments `pain_point_frequency` without appending a
`source_posts` entry, so `source_posts.length ≠ pain_point_frequency`. -/
theorem C9_counterexample :
    (aggregate_evidence_for_opportunity [leadNoPermalink]).pain_point_frequency = 1 ∧
    (aggregate_evidence_for_opportunity [leadNoPermalink]).source_posts.length = 0 ∧
    ¬((aggregate_evidence_for_opportunity [leadNoPermalink]).source_posts.length =
        (aggregate_evidence_for_opportunity [leadNoPermalink]).pain_point_frequency) := by
  refine ⟨by decide, by decide, by decide⟩

/-- C9 (amended): a non-skipped record increments `pain_point_frequency`, but
a `source_posts` entry is appended only when the record's permalink is
non-empty; consequently `source_posts.length = pain_point_frequency` holds
when every input record has a non-empty permalink. -/
theorem C9_source_posts_amended (ls : List AggLead)
    (hpl : ∀ l ∈ ls, strTruthy l.permalink = true) :
    (aggregate_evidence_for_opportunity ls).source_posts.length =
      (aggregate_evidence_for_opportunity ls).pain_point_frequency := by
  rw [agg_source_posts, agg_freq]
  induction ls with
  | nil => simp
  | cons l ls ih =>
    have hl : strTruthy l.permalink = true := hpl l (List.mem_cons_self l ls)
    have hrest : ∀ x ∈ ls, strTruthy x.permalink = true :=
      fun x hx => hpl x (List.mem_cons_of_mem l hx)
    rw [List.flatMap_cons, List.countP_cons, List.length_append, ih hrest]
    rw [spContrib, hl]
    by_cases hk : keepB l = true
    · simp [hk]
      omega
    · have hk2 : keepB l = false := by simpa using hk
      simp [hk2]

/-- Witness for C9 (amended): on a concrete input whose records all carry a
permalink, `source_posts.length` equals `pain_point_frequency`. -/
theorem C9_source_posts_amended_witness :
    (∀ l ∈ [sampleLeadA, sampleLeadB], strTruthy l.permalink = true) ∧
      (aggregate_evidence_for_opportunity [sampleLeadA, sampleLeadB]).source_posts.length =
        (aggregate_evidence_for_opportunity [sampleLeadA, sampleLeadB]).pain_point_frequency :=
  ⟨by decide, C9_source_posts_amended _ (by decide)⟩

/-! ## The retry decorator (`src/gemini_core.py`, lines 11–32)

The wrapped function is modelled as a map from the call index to the
outcome of that call: a returned value, a `ResourceExhausted` (rate-limit)
exception, or any other exception. -/

/-- Outcome of one call to the wrapped function. -/
inductive CallOutcome (α : Type) where
  | ok (v : α)
  | rateLimited
  | otherError
deriving DecidableEq, Repr

/-- Result of running the retry wrapper. `pyNone` is the `return None` after
the while-loop (reachable only with `max_retries = 0`); `rateRaised` re-raises
the rate-limit error after exhausting retries; `otherRaised` is a non-rate-limit
exception propagating uncaught. -/
inductive RetryResult (α : Type) where
  | success (v : α)
  | pyNone
  | rateRaised
  | otherRaised
deriving DecidableEq, Repr

/-- Observable trace of one run of the retry wrapper: the final result, the
sequence of sleep delays (one per logged retry event, in order), and the
number of calls made to the wrapped function. -/
structure RetryRun (α : Type) where
  result : RetryResult α
  sleeps : List Nat
  calls : Nat
deriving DecidableEq, Repr

/-- The while-loop of `retry_on_rate_limit`'s `wrapper`. `fuel` is the number
of loop iterations still allowed, i.e. `max_retries - retries`; `retries` and
`delay` are the Python locals. -/
def retryGo {α : Type} (behavior : Nat → CallOutcome α) (max_retries : Nat) :
    Nat → Nat → Nat → Nat → RetryRun α
  | 0, _, _, _ => ⟨RetryResult.pyNone, [], 0⟩
  | fuel + 1, retries, delay, callIdx =>
    match behavior callIdx with
    | CallOutcome.ok v => ⟨RetryResult.success v, [], 1⟩
    | CallOutcome.otherError => ⟨RetryResult.otherRaised, [], 1⟩
    | CallOutcome.rateLimited =>
      if max_retries ≤ retries + 1 then ⟨RetryResult.rateRaised, [], 1⟩
      else
        let rest := retryGo behavior max_retries fuel (retries + 1) (delay * 2) (callIdx + 1)
        ⟨rest.result, delay :: rest.sleeps, rest.calls + 1⟩

/-- `retry_on_rate_limit(max_retries, initial_delay)` applied to a wrapped
function with the given call behavior: start with `retries = 0` and
`delay = initial_delay`. -/
def retry_on_rate_limit {α : Type} (behavior : Nat → CallOutcome α)
    (max_retries : Nat) (initial_delay : Nat) : RetryRun α :=
  retryGo behavior max_retries max_retries 0 initial_delay 0

/-! ## Claim C5 -/

/-- C5: with the defaults (`max_retries = 3`, `initial_delay = 5`):
a behavior that is rate-limited on the first two calls and succeeds on the
third yields exactly that success, two logged retry events with delays 5 then
10 (doubling), and three calls in total, surfacing no error; a non-rate-limit
error on the first call propagates immediately with no retry; and the
rate-limit error is re-raised only when all three allowed calls were
rate-limited. -/
theorem C5_retry_on_rate_limit (behavior : Nat → CallOutcome Nat) (v : Nat)
    (h0 : behavior 0 = CallOutcome.rateLimited)
    (h1 : behavior 1 = CallOutcome.rateLimited)
    (h2 : behavior 2 = CallOutcome.ok v) :
    retry_on_rate_limit behavior 3 5 = ⟨RetryResult.success v, [5, 10], 3⟩ ∧
    (∀ b : Nat → CallOutcome Nat, b 0 = CallOutcome.otherError →
      retry_on_rate_limit b 3 5 = ⟨RetryResult.otherRaised, [], 1⟩) ∧
    (∀ b : Nat → CallOutcome Nat,
      (retry_on_rate_limit b 3 5).result = RetryResult.rateRaised →
        b 0 = CallOutcome.rateLimited ∧ b 1 = CallOutcome.rateLimited ∧
          b 2 = CallOutcome.rateLimited) := by
  refine ⟨?_, ?_, ?_⟩
  · simp [retry_on_rate_limit, retryGo, h0, h1, h2]
  · intro b hb
    simp [retry_on_rate_limit, retryGo, hb]
  · intro b hb
    rcases hb0 : b 0 with v0 | _ | _ <;>
      rw [retry_on_rate_limit, retryGo, hb0] at hb
    · simp at hb
    · rcases hb1 : b 1 with v1 | _ | _ <;>
        simp only [retryGo, hb1] at hb
      · simp at hb
      · rcases hb2 : b 2 with v2 | _ | _ <;>
          simp only [retryGo, hb2] at hb
        · simp at hb
        · exact ⟨rfl, rfl, rfl⟩

        · simp at hb
      · simp at hb
    · simp at hb

/-- A concrete behavior: rate-limited twice, then returns 42. -/
def rateTwiceThenOk : Nat → CallOutcome Nat
  | 0 => CallOutcome.rateLimited
  | 1 => CallOutcome.rateLimited
  | _ => CallOutcome.ok 42

/-- Witness for C5: the retry theorem applied to the concrete
rate-limited-twice behavior. -/
theorem C5_retry_on_rate_limit_witness :
    rateTwiceThenOk 0 = CallOutcome.rateLimited ∧
    rateTwiceThenOk 1 = CallOutcome.rateLimited ∧
    rateTwiceThenOk 2 = CallOutcome.ok 42 ∧
    (retry_on_rate_limit rateTwiceThenOk 3 5 = ⟨RetryResult.success 42, [5, 10], 3⟩ ∧
      (∀ b : Nat → CallOutcome Nat, b 0 = CallOutcome.otherError →
        retry_on_rate_limit b 3 5 = ⟨RetryResult.otherRaised, [], 1⟩) ∧
      (∀ b : Nat → CallOutcome Nat,
        (retry_on_rate_limit b 3 5).result = RetryResult.rateRaised →
          b 0 = CallOutcome.rateLimited ∧ b 1 = CallOutcome.rateLimited ∧
            b 2 = CallOutcome.rateLimited)) :=
  ⟨by decide, by decide, by decide,
    C5_retry_on_rate_limit rateTwiceThenOk 42 (by decide) (by decide) (by decide)⟩

/-! ## Opportunity validation (`src/orchestrator.py`, `validate_and_update_opportunity`,
lines 358–385)

The validation call `validate_opportunity_with_gemini` returns a parsed JSON
dictionary or `None`; the function builds the `update_data` dictionary written
to the `opportunities` table. -/

/-- A parsed validation-response dictionary: every key may be missing. -/
structure ValidationResult where
  monetization_score : Option Int
  market_size_score : Option Int
  feasibility_score : Option Int
  recommendation : Option String
  justification : Option String
deriving DecidableEq, Repr

/-- The `update_data` dictionary written by `validate_and_update_opportunity`.
In the failure branch only `status` is set (the other keys are absent). -/
structure OppUpdate where
  monetization_score : Option Int
  market_size_score : Option Int
  feasibility_score : Option Int
  recommendation : Option String
  justification : Option String
  status : String
deriving DecidableEq, Repr

/-- The parsed empty object `{}` (no modeled key present). -/
def ValidationResult.empty : ValidationResult :=
  ⟨none, none, none, none, none⟩

/-- `validate_and_update_opportunity` (lines 364–380): the guard
`if validation_result:` (line 365) is a Python truthiness test, so both
`None` (failed call) and a parsed empty object take the failure branch,
writing only status `"validation_failed"`. A non-empty parsed result reads
`recommendation` with default `"No-Go"`, picks the status by comparing it to
`"Go"`, and stores the three scores and the justification verbatim. -/
def validate_and_update_opportunity (validation_result : Option ValidationResult) : OppUpdate :=
  match validation_result with
  | some r =>
    if r = ValidationResult.empty then
      { monetization_score := none, market_size_score := none, feasibility_score := none,
        recommendation := none, justification := none, status := "validation_failed" }
    else
      let recommendation := r.recommendation.getD "No-Go"
      let new_status :=
        if recommendation = "Go" then "opportunity_validated" else "opportunity_rejected"
      { monetization_score := r.monetization_score,
        market_size_score := r.market_size_score,
        feasibility_score := r.feasibility_score,
        recommendation := some recommendation,
        justification := r.justification,
        status := new_status }
  | none =>
    { monetization_score := none, market_size_score := none, feasibility_score := none,
      recommendation := none, justification := none, status := "validation_failed" }

/-! ## Claims C4 and C10 -/

/-- C4: when the validation call returns a parsed result carrying a
`recommendation` field, the stored recommendation is exactly that field and
the status is `"opportunity_validated"` iff it equals `"Go"` (otherwise
`"opportunity_rejected"`), independent of the numeric scores; in particular
scores 9/2/9 with recommendation `"Go"` are stored as validated; and when the
call returns no result the status is `"validation_failed"`. -/
theorem C4_validation_recommendation (r : ValidationResult) (rec : String)
    (hrec : r.recommendation = some rec) :
    ((validate_and_update_opportunity (some r)).recommendation = some rec ∧
      ((validate_and_update_opportunity (some r)).status = "opportunity_validated" ↔
        rec = "Go") ∧
      ((validate_and_update_opportunity (some r)).status = "opportunity_rejected" ↔
        ¬rec = "Go")) ∧
    (validate_and_update_opportunity
        (some ⟨some 9, some 2, some 9, some "Go", some "j"⟩)).status =
      "opportunity_validated" ∧
    (validate_and_update_opportunity none).status = "validation_failed" := by
  have hne : ¬(r = ValidationResult.empty) := by
    intro he
    rw [he] at hrec
    simp [ValidationResult.empty] at hrec
  refine ⟨⟨?_, ?_, ?_⟩, by decide, by decide⟩
  · simp [validate_and_update_opportunity, hne, hrec]
  · simp only [validate_and_update_opportunity, if_neg hne, hrec, Option.getD_some]
    by_cases h : rec = "Go" <;> simp [h]
  · simp only [validate_and_update_opportunity, if_neg hne, hrec, Option.getD_some]
    by_cases h : rec = "Go" <;> simp [h]

/-- Witness for C4: the recommendation theorem applied to the concrete 9/2/9
"Go" validation result. -/
theorem C4_validation_recommendation_witness :
    (ValidationResult.recommendation ⟨some 9, some 2, some 9, some "Go", some "j"⟩ =
      some "Go") ∧
    ((validate_and_update_opportunity
        (some ⟨some 9, some 2, some 9, some "Go", some "j"⟩)).recommendation = some "Go" ∧
      ((validate_and_update_opportunity
          (some ⟨some 9, some 2, some 9, some "Go", some "j"⟩)).status =
            "opportunity_validated" ↔ "Go" = "Go") ∧
      ((validate_and_update_opportunity
          (some ⟨some 9, some 2, some 9, some "Go", some "j"⟩)).status =
            "opportunity_rejected" ↔ ¬"Go" = "Go")) ∧
    (validate_and_update_opportunity
        (some ⟨some 9, some 2, some 9, some "Go", some "j"⟩)).status =
      "opportunity_validated" ∧
    (validate_and_update_opportunity none).status = "validation_failed" :=
  ⟨by decide, (C4_validation_recommendation ⟨some 9, some 2, some 9, some "Go", some "j"⟩
      "Go" (by decide)).1,
    by decide, by decide⟩

/-- Counterexample to C10 as stated: the parsed empty object lacks the
`recommendation` key, yet `if validation_result:` (orchestrator line 365)
treats it as falsy, so the opportunity is stored as `validation_failed` —
not `opportunity_rejected` with recommendation `"No-Go"`. -/
theorem C10_counterexample :
    ValidationResult.empty.recommendation = none ∧
    (validate_and_update_opportunity (some ValidationResult.empty)).status =
      "validation_failed" ∧
    ¬((validate_and_update_opportunity (some ValidationResult.empty)).status =
        "opportunity_rejected") ∧
    ¬((validate_and_update_opportunity (some ValidationResult.empty)).recommendation =
        some "No-Go") := by
  refine ⟨by decide, by decide, by decide, by decide⟩

/-- C10 (amended): a parsed validation result that lacks the
`recommendation` key yields status `"opportunity_rejected"` with stored
recommendation `"No-Go"` when the result is non-empty; the parsed empty
object is falsy and is stored as `"validation_failed"` like a failed call.
In neither case does a missing categorical field lead to
`"opportunity_validated"`. -/
theorem C10_missing_recommendation_amended (r : ValidationResult)
    (hrec : r.recommendation = none) :
    (r ≠ ValidationResult.empty →
      (validate_and_update_opportunity (some r)).recommendation = some "No-Go" ∧
      (validate_and_update_opportunity (some r)).status = "opportunity_rejected") ∧
    (r = ValidationResult.empty →
      (validate_and_update_opportunity (some r)).status = "validation_failed") ∧
    ¬((validate_and_update_opportunity (some r)).status = "opportunity_validated") := by
  by_cases he : r = ValidationResult.empty
  · subst he
    refine ⟨fun h => absurd rfl h, fun _ => by decide, by decide⟩
  · refine ⟨fun _ => ?_, fun h => absurd h he, ?_⟩
    · simp [validate_and_update_opportunity, he, hrec]
    · simp [validate_and_update_opportunity, he, hrec]

/-- Witness for C10 (amended): the theorem applied to a concrete non-empty
validation result without a recommendation key. -/
theorem C10_missing_recommendation_amended_witness :
    (ValidationResult.recommendation ⟨some 8, some 8, some 8, none, none⟩ = none) ∧
    (((⟨some 8, some 8, some 8, none, none⟩ : ValidationResult) ≠ ValidationResult.empty →
        (validate_and_update_opportunity
            (some ⟨some 8, some 8, some 8, none, none⟩)).recommendation = some "No-Go" ∧
        (validate_and_update_opportunity
            (some ⟨some 8, some 8, some 8, none, none⟩)).status = "opportunity_rejected") ∧
      ((⟨some 8, some 8, some 8, none, none⟩ : ValidationResult) = ValidationResult.empty →
        (validate_and_update_opportunity
            (some ⟨some 8, some 8, some 8, none, none⟩)).status = "validation_failed") ∧
      ¬((validate_and_update_opportunity
          (some ⟨some 8, some 8, some 8, none, none⟩)).status = "opportunity_validated")) :=
  ⟨by decide,
    C10_missing_recommendation_amended ⟨some 8, some 8, some 8, none, none⟩ (by decide)⟩

/-! ## Lead extraction (`src/analyzers/lead_analyzer.py`)

`model.generate_content` is modelled by one scripted response: it either
raises, or returns text that parses to an analysis dictionary, or returns
text that fails to parse as JSON. The functions additionally report the
number of provider calls made. -/

/-- One scripted provider response. -/
inductive GenResponse where
  | raises
  | parsed (a : Option Analysis)
deriving DecidableEq, Repr

/-- `analyze_lead_with_gemini` (lines 9–44): empty or whitespace-only text
short-circuits to `None` with no provider call; otherwise one call is made,
and any exception or JSON-parse failure yields `None` (both are caught by the
function's own `except` clauses). Returns the result and the call count. -/
def analyze_lead_with_gemini (resp : GenResponse) (lead_text : String) :
    Option Analysis × Nat :=
  if lead_text = "" ∨ strStrip lead_text = "" then (none, 0)
  else
    match resp with
    | GenResponse.raises => (none, 1)
    | GenResponse.parsed p => (p, 1)

/-- The metadata dictionary passed to the enhanced extraction (orchestrator
lines 198–207). -/
structure LeadData where
  content : Option String
  reddit_id : Option String
  permalink : Option String
  subreddit : Option String
  is_comment : Option Bool
deriving DecidableEq, Repr

/-- Outcome of `analyze_lead_with_enhanced_extraction`: the provider call is
outside the `try`, so an exception propagates; otherwise a dictionary is
always returned (a parse failure substitutes the fixed fallback object). -/
inductive EnhancedOutcome where
  | raised
  | ok (a : Analysis)
deriving DecidableEq, Repr

/-- The fixed fallback object of the enhanced path (lines 86–97). -/
def enhancedFallback (lead_data : LeadData) : Analysis :=
  { problem_summary := some "Error parsing response",
    problem_domain := some "Unknown",
    supporting_quotes := some [],
    urgency_level := some "Low",
    financial_indicators := some ⟨some [], some "Unknown", none⟩,
    saas_potential_flag := some "Uncertain",
    source_url := some (lead_data.permalink.getD "") }

/-- `analyze_lead_with_enhanced_extraction` (lines 48–97): no empty-input
guard — the provider is always called exactly once, with `raw_text` rendered
from `lead_data.get('content', '')` whatever it is. A parsed result gains a
`source_url` when the permalink is truthy; a parse failure yields the fixed
fallback object. Returns the outcome and the call count. -/
def analyze_lead_with_enhanced_extraction (resp : GenResponse) (lead_data : LeadData) :
    EnhancedOutcome × Nat :=
  match resp with
  | GenResponse.raises => (EnhancedOutcome.raised, 1)
  | GenResponse.parsed none => (EnhancedOutcome.ok (enhancedFallback lead_data), 1)
  | GenResponse.parsed (some a) =>
    if strTruthy lead_data.permalink then
      (EnhancedOutcome.ok
        { a with source_url := some ("https://reddit.com" ++ lead_data.permalink.getD "") }, 1)
    else (EnhancedOutcome.ok a, 1)

/-! ## Claim C6 -/

/-- A lead-data record with empty content, for the C6 counterexample. -/
def emptyContentLead : LeadData :=
  { content := some "", reddit_id := some "abc", permalink := some "/r/x/1",
    subreddit := some "x", is_comment := some false }

/-- Counterexample to C6 as stated: on empty input the evidence-capturing
path `analyze_lead_with_enhanced_extraction` still makes a provider call
(count 1, not 0) — it has no empty/whitespace guard, unlike
`analyze_lead_with_gemini` (lines 20–21). -/
theorem C6_counterexample :
    emptyContentLead.content = some "" ∧
    (analyze_lead_with_enhanced_extraction GenResponse.raises emptyContentLead).2 = 1 ∧
    ¬((analyze_lead_with_enhanced_extraction GenResponse.raises emptyContentLead).2 = 0) := by
  refine ⟨by decide, by decide, by decide⟩

/-- C6 (amended): only the base path `analyze_lead_with_gemini` rejects
empty/whitespace-only input, returning `None` before any provider call
(distinct from a provider failure, which happens only after a call); the
enhanced path `analyze_lead_with_enhanced_extraction` performs exactly one
provider call on every input, including empty content. -/
theorem C6_empty_input_amended :
    (∀ (resp : GenResponse) (lead_text : String),
      lead_text = "" ∨ strStrip lead_text = "" →
        analyze_lead_with_gemini resp lead_text = (none, 0)) ∧
    (∀ (resp : GenResponse) (lead_data : LeadData),
      (analyze_lead_with_enhanced_extraction resp lead_data).2 = 1) := by
  constructor
  · intro resp lead_text h
    unfold analyze_lead_with_gemini
    rw [if_pos h]
  · intro resp lead_data
    unfold analyze_lead_with_enhanced_extraction
    rcases resp with _ | p
    · rfl
    · rcases p with _ | a
      · rfl
      · dsimp only
        split <;> rfl

/-- Witness for C6 (amended): the base path short-circuits the whitespace-only
input `"  "` with zero provider calls. -/
theorem C6_empty_input_amended_witness :
    (("  " : String) = "" ∨ strStrip "  " = "") ∧
      analyze_lead_with_gemini (GenResponse.parsed (some Analysis.empty)) "  " = (none, 0) :=
  ⟨by decide, C6_empty_input_amended.1 (GenResponse.parsed (some Analysis.empty)) "  "
    (by decide)⟩

/-! ## Theme consolidation (`src/analyzers/theme_analyzer.py`)

A consolidation run makes a sequence of provider calls (one per first-pass
batch, then one per re-consolidation pass/batch). The script of responses is
an explicit list consumed in call order; a missing response behaves like a
failed call. A parsed JSON object is an association list in insertion order,
mirroring a Python dict. -/

/-- A theme mapping: canonical theme name → list of original domain labels,
as an insertion-ordered association list (a parsed JSON object). -/
abbrev ThemeMap := List (String × List String)

/-- One provider response for a consolidation call: the call raises or the
text fails to parse (`fail`), parses to a non-dict JSON value (`nonDict`),
or parses to an object (`dict`). -/
inductive BatchResp where
  | fail
  | nonDict
  | dict (m : ThemeMap)
deriving DecidableEq, Repr

/-- Consume the next scripted response; an exhausted script is a failure. -/
def callModel : List BatchResp → BatchResp × List BatchResp
  | [] => (BatchResp.fail, [])
  | r :: rs => (r, rs)

/-- Python dict lookup `m[k]` / `k in m` on the association list. -/
def alookup (k : String) : ThemeMap → Option (List String)
  | [] => none
  | q :: rest => if q.1 = k then some q.2 else alookup k rest

/-- Python dict assignment `m[p.1] = p.2`: replace in place if the key is
present, else append. -/
def insertOrReplace : ThemeMap → String × List String → ThemeMap
  | [], p => [p]
  | q :: rest, p => if q.1 = p.1 then (p.1, p.2) :: rest else q :: insertOrReplace rest p

/-- Python `m.update(new)`: assign every pair of `new` in order (later keys
overwrite existing entries' values). -/
def dictUpdate (m new : ThemeMap) : ThemeMap :=
  new.foldl insertOrReplace m

/-- Contiguous batches of size `n` (the slices of
`range(0, len(domain_list), batch_size)`), with fuel for termination. -/
def chunksGo (n : Nat) : Nat → List String → List (List String)
  | 0, _ => []
  | _ + 1, [] => []
  | fuel + 1, c :: l => (c :: l).take n :: chunksGo n fuel ((c :: l).drop n)

/-- Contiguous batches of size `n` of a list. -/
def chunks (n : Nat) (l : List String) : List (List String) :=
  chunksGo n l.length l

/-- The first-pass batch loop (lines 87–122): per batch consume one response;
merge a dict response into the running result with `dict.update`; skip a
failed or non-dict response and continue. -/
def firstPassGo : ThemeMap → List (List String) → List BatchResp → ThemeMap × List BatchResp
  | acc, [], rs => (acc, rs)
  | acc, _ :: batches, rs =>
    let step := callModel rs
    match step.1 with
    | BatchResp.dict m => firstPassGo (dictUpdate acc m) batches step.2
    | _ => firstPassGo acc batches step.2

/-- `consolidate_themes_second_pass` (lines 153–199): one provider call; on a
dict response build the final mapping by assigning, for each final theme, the
concatenation of the first-pass member lists of its constituent themes
(themes absent from `theme_mapping` contribute nothing); any exception or
parse failure (including a non-dict response, whose `.items()` raises)
yields `None`. -/
def consolidate_themes_second_pass (theme_names : List String) (theme_mapping : ThemeMap)
    (rs : List BatchResp) : Option ThemeMap × List BatchResp :=
  let step := callModel rs
  match step.1 with
  | BatchResp.dict sp =>
    (some (sp.foldl (fun acc p =>
      insertOrReplace acc
        (p.1, p.2.flatMap (fun t => (alookup t theme_mapping).getD []))) []), step.2)
  | _ => (none, step.2)

/-- `consolidate_themes_second_pass_batched` (lines 202–256): delegate small
inputs to the plain second pass; otherwise consolidate chunk by chunk (a
falsy chunk result keeps that chunk's original themes), then run a third
pass when more than 100 themes remain (falling back to the accumulated
result if it is falsy). -/
def consolidate_themes_second_pass_batched (theme_names : List String)
    (theme_mapping : ThemeMap) (batch_size : Nat) (rs : List BatchResp) :
    Option ThemeMap × List BatchResp :=
  if theme_names.length ≤ batch_size then
    consolidate_themes_second_pass theme_names theme_mapping rs
  else
    let step : ThemeMap × List BatchResp → List String → ThemeMap × List BatchResp :=
      fun st batch =>
        let batch_mapping :=
          batch.filterMap (fun t => (alookup t theme_mapping).map (fun v => (t, v)))
        match consolidate_themes_second_pass batch batch_mapping st.2 with
        | (some bc, rest) =>
          if bc.isEmpty then (dictUpdate st.1 batch_mapping, rest)
          else (dictUpdate st.1 bc, rest)
        | (none, rest) => (dictUpdate st.1 batch_mapping, rest)
    let res := (chunks batch_size theme_names).foldl step ([], rs)
    if 100 < res.1.length then
      match consolidate_themes_second_pass (res.1.map Prod.fst) res.1 res.2 with
      | (some fc, rest) => if fc.isEmpty then (some res.1, rest) else (some fc, rest)
      | (none, rest) => (some res.1, rest)
    else (some res.1, res.2)

/-- The tail of `consolidate_themes_with_gemini` after the first-pass batch
loop (lines 124–150): abort with `None` only if the accumulated mapping is
empty; when more than one theme survives, run the second pass (plain for at
most 200 themes, batched beyond that) and return its result unless it is
falsy (`None` or empty), in which case return the first-pass result. -/
def consolidateAfterFirstPass (consolidated_result : ThemeMap) (rs : List BatchResp) :
    Option ThemeMap :=
  if consolidated_result.isEmpty then none
  else if 1 < consolidated_result.length then
    let consolidated_theme_names := consolidated_result.map Prod.fst
    if consolidated_theme_names.length ≤ 200 then
      match consolidate_themes_second_pass consolidated_theme_names consolidated_result rs with
      | (some fc, _) => if fc.isEmpty then some consolidated_result else some fc
      | (none, _) => some consolidated_result
    else
      match consolidate_themes_second_pass_batched consolidated_theme_names
          consolidated_result 50 rs with
      | (some fc, _) => if fc.isEmpty then some consolidated_result else some fc
      | (none, _) => some consolidated_result
  else some consolidated_result

/-- `consolidate_themes_with_gemini` (lines 55–150): reject an empty input;
bound the input to the first `max_domains` labels; run the first pass over
contiguous batches of `batch_size`; finish with `consolidateAfterFirstPass`
on the accumulated mapping and the remaining response script. -/
def consolidate_themes_with_gemini (rs : List BatchResp) (domain_list : List String)
    (batch_size : Nat) (max_domains : Nat) : Option ThemeMap :=
  if domain_list.isEmpty then none
  else
    let fp := firstPassGo [] (chunks batch_size (domain_list.take max_domains)) rs
    consolidateAfterFirstPass fp.1 fp.2

/-! ### Characterization lemmas for the consolidation run -/

theorem insertOrReplace_of_not_mem (m : ThemeMap) (p : String × List String)
    (h : p.1 ∉ m.map Prod.fst) : insertOrReplace m p = m ++ [p] := by
  induction m with
  | nil => rfl
  | cons q rest ih =>
    rw [insertOrReplace]
    have hq : ¬q.1 = p.1 := by
      intro he
      exact h (by simp [he])
    rw [if_neg hq, ih (fun hm => h (by simp [hm]))]
    rfl

theorem insertOrReplace_ne_nil (m : ThemeMap) (p : String × List String) :
    insertOrReplace m p ≠ [] := by
  cases m with
  | nil => simp [insertOrReplace]
  | cons q rest =>
    rw [insertOrReplace]
    split <;> simp

theorem dictUpdate_eq_nil (new : ThemeMap) : ∀ m : ThemeMap,
    dictUpdate m new = [] → m = [] ∧ new = [] := by
  induction new with
  | nil =>
    intro m h
    exact ⟨h, rfl⟩
  | cons p new ih =>
    intro m h
    rw [dictUpdate, List.foldl_cons] at h
    rcases ih (insertOrReplace m p) h with ⟨h1, _⟩
    exact absurd h1 (insertOrReplace_ne_nil m p)

theorem dictUpdate_of_disjoint : ∀ (new m : ThemeMap),
    ((m ++ new).map Prod.fst).Nodup → dictUpdate m new = m ++ new := by
  intro new
  induction new with
  | nil =>
    intro m _
    simp [dictUpdate]
  | cons p new ih =>
    intro m hnd
    have hp : p.1 ∉ m.map Prod.fst := by
      rw [List.map_append] at hnd
      have hdisj := List.disjoint_of_nodup_append hnd
      intro hmem
      exact hdisj hmem (by simp)
    rw [dictUpdate, List.foldl_cons, insertOrReplace_of_not_mem m p hp]
    have hnd2 : (((m ++ [p]) ++ new).map Prod.fst).Nodup := by
      rw [List.append_assoc]
      simpa using hnd
    have := ih (m ++ [p]) hnd2
    rw [dictUpdate] at this
    rw [this, List.append_assoc]
    rfl

theorem foldl_dictUpdate_of_nodup : ∀ (maps : List ThemeMap) (m : ThemeMap),
    ((m.map Prod.fst) ++ maps.flatMap (fun x => x.map Prod.fst)).Nodup →
      maps.foldl dictUpdate m = m ++ maps.flatten := by
  intro maps
  induction maps with
  | nil =>
    intro m _
    simp
  | cons mm maps ih =>
    intro m hnd
    rw [List.foldl_cons]
    have hsub : ((m ++ mm).map Prod.fst).Nodup := by
      rw [List.map_append]
      refine List.Nodup.sublist ?_ hnd
      rw [List.flatMap_cons]
      exact (List.sublist_append_left (mm.map Prod.fst)
        (maps.flatMap fun x => x.map Prod.fst)).append_left (m.map Prod.fst)
    rw [dictUpdate_of_disjoint mm m hsub]
    have hnd2 : (((m ++ mm).map Prod.fst) ++ maps.flatMap (fun x => x.map Prod.fst)).Nodup := by
      rw [List.map_append, List.append_assoc]
      rw [List.flatMap_cons, ← List.append_assoc] at hnd
      rw [List.append_assoc] at hnd
      exact hnd
    rw [ih (m ++ mm) hnd2, List.flatten_cons, List.append_assoc]

theorem firstPassGo_dicts : ∀ (batches : List (List String)) (maps : List ThemeMap)
    (rest : List BatchResp) (acc : ThemeMap), batches.length = maps.length →
      firstPassGo acc batches (maps.map BatchResp.dict ++ rest) =
        (maps.foldl dictUpdate acc, rest) := by
  intro batches
  induction batches with
  | nil =>
    intro maps rest acc hlen
    have : maps = [] := List.length_eq_zero.mp hlen.symm
    subst this
    rfl
  | cons b batches ih =>
    intro maps rest acc hlen
    cases maps with
    | nil => simp at hlen
    | cons mm maps =>
      rw [List.map_cons, List.cons_append, firstPassGo]
      simp only [callModel]
      rw [ih maps rest (dictUpdate acc mm) (by simpa using hlen)]
      rfl

theorem firstPassGo_nil_acc : ∀ (batches : List (List String)) (rs : List BatchResp)
    (acc : ThemeMap), (firstPassGo acc batches rs).1 = [] → acc = [] := by
  intro batches
  induction batches with
  | nil =>
    intro rs acc h
    exact h
  | cons b batches ih =>
    intro rs acc h
    rw [firstPassGo] at h
    rcases hr : (callModel rs).1 with _ | _ | m <;> rw [hr] at h
    · exact ih _ _ h
    · exact ih _ _ h
    · exact (dictUpdate_eq_nil m acc (ih _ _ h)).1

theorem firstPassGo_nil_resp : ∀ (batches : List (List String)) (rs : List BatchResp)
    (acc : ThemeMap), (firstPassGo acc batches rs).1 = [] →
      ∀ i, i < batches.length → ∀ m, rs.get? i = some (BatchResp.dict m) → m = [] := by
  intro batches
  induction batches with
  | nil =>
    intro rs acc _ i hi
    simp at hi
  | cons b batches ih =>
    intro rs acc h i hi m hm
    cases rs with
    | nil => simp at hm
    | cons r rs =>
      rw [firstPassGo] at h
      simp only [callModel] at h
      cases i with
      | zero =>
        simp only [List.get?] at hm
        injection hm with hm1
        subst hm1
        have hacc := firstPassGo_nil_acc batches rs (dictUpdate acc m) h
        exact (dictUpdate_eq_nil m acc hacc).2
      | succ i =>
        have hi2 : i < batches.length := by
          simp only [List.length_cons] at hi
          omega
        rcases hr : r with _ | _ | mm <;> rw [hr] at h
        · exact ih rs acc h i hi2 m hm
        · exact ih rs acc h i hi2 m hm
        · exact ih rs (dictUpdate acc mm) h i hi2 m hm

theorem chunksGo_flatten (n : Nat) (hn : 0 < n) : ∀ (fuel : Nat) (l : List String),
    l.length ≤ fuel → (chunksGo n fuel l).flatten = l := by
  intro fuel
  induction fuel with
  | zero =>
    intro l hl
    have : l = [] := List.length_eq_zero.mp (by omega)
    subst this
    rfl
  | succ fuel ih =>
    intro l hl
    cases l with
    | nil => rfl
    | cons c l =>
      rw [chunksGo, List.flatten_cons]
      rw [ih ((c :: l).drop n) (by simp [List.length_drop] at hl ⊢; omega)]
      exact List.take_append_drop n (c :: l)

theorem chunks_flatten (n : Nat) (hn : 0 < n) (l : List String) :
    (chunks n l).flatten = l :=
  chunksGo_flatten n hn l.length l (Nat.le_refl _)

theorem flatMap_congr_mem {α β : Type} : ∀ (l : List α) (f g : α → List β),
    (∀ a ∈ l, f a = g a) → l.flatMap f = l.flatMap g := by
  intro l
  induction l with
  | nil =>
    intro f g _
    rfl
  | cons a l ih =>
    intro f g h
    rw [List.flatMap_cons, List.flatMap_cons, h a (by simp),
      ih f g (fun x hx => h x (by simp [hx]))]

theorem flatten_flatMap {α β : Type} : ∀ (L : List (List α)) (f : α → List β),
    L.flatten.flatMap f = L.flatMap (fun l => l.flatMap f) := by
  intro L
  induction L with
  | nil =>
    intro f
    rfl
  | cons l L ih =>
    intro f
    rw [List.flatten_cons, List.flatMap_cons, List.flatMap_append, ih]

theorem flatMap_alookup_keys : ∀ (m : ThemeMap), ((m.map Prod.fst).Nodup) →
    (m.map Prod.fst).flatMap (fun k => (alookup k m).getD []) = m.flatMap Prod.snd := by
  intro m
  induction m with
  | nil =>
    intro _
    rfl
  | cons q rest ih =>
    intro hnd
    rw [List.map_cons, List.flatMap_cons, List.flatMap_cons]
    have hq : alookup q.1 (q :: rest) = some q.2 := by
      rw [alookup, if_pos rfl]
    rw [hq]
    have hrest : (rest.map Prod.fst).flatMap (fun k => (alookup k (q :: rest)).getD []) =
        (rest.map Prod.fst).flatMap (fun k => (alookup k rest).getD []) := by
      refine flatMap_congr_mem _ _ _ ?_
      intro k hk
      have hne : ¬q.1 = k := by
        rw [List.map_cons, List.nodup_cons] at hnd
        intro he
        exact hnd.1 (he ▸ hk)
      rw [alookup, if_neg hne]
    rw [hrest, ih (by rw [List.map_cons, List.nodup_cons] at hnd; exact hnd.2)]
    rfl

/-- The second-pass merge on a dict response `sp`, as a plain map: when the
response's keys are distinct, the assignment loop builds exactly the list of
pairs `(final_theme, concatenated member lists)` in response order. -/
theorem secondPass_dict_eq (tm : ThemeMap) (sp : ThemeMap) (rs : List BatchResp)
    (theme_names : List String) (hnd : (sp.map Prod.fst).Nodup) :
    consolidate_themes_second_pass theme_names tm (BatchResp.dict sp :: rs) =
      (some (sp.map (fun p =>
        (p.1, p.2.flatMap (fun t => (alookup t tm).getD [])))), rs) := by
  rw [consolidate_themes_second_pass]
  simp only [callModel]
  have hfold : sp.foldl (fun acc p =>
      insertOrReplace acc (p.1, p.2.flatMap (fun t => (alookup t tm).getD []))) [] =
      dictUpdate [] (sp.map (fun p => (p.1, p.2.flatMap (fun t => (alookup t tm).getD [])))) := by
    rw [dictUpdate, List.foldl_map]
  rw [hfold, dictUpdate_of_disjoint _ [] (by simpa [List.map_map, Function.comp] using hnd)]
  rfl

theorem consolidate_eq (rs : List BatchResp) (dl : List String) (bs md : Nat)
    (hdl : dl.isEmpty = false) :
    consolidate_themes_with_gemini rs dl bs md =
      consolidateAfterFirstPass (firstPassGo [] (chunks bs (dl.take md)) rs).1
        (firstPassGo [] (chunks bs (dl.take md)) rs).2 := by
  unfold consolidate_themes_with_gemini
  rw [if_neg (by simp [hdl])]

theorem afterFirstPass_ne_none (m : ThemeMap) (rs : List BatchResp) (hm : m ≠ []) :
    consolidateAfterFirstPass m rs ≠ none := by
  rw [consolidateAfterFirstPass, if_neg (by simpa [List.isEmpty_iff] using hm)]
  by_cases hl : 1 < m.length
  · rw [if_pos hl]
    dsimp only
    by_cases hn : (m.map Prod.fst).length ≤ 200
    · rw [if_pos hn]
      rcases h2 : consolidate_themes_second_pass (m.map Prod.fst) m rs with ⟨o, rest⟩
      rcases o with _ | fc
      · simp
      · dsimp only
        split <;> simp
    · rw [if_neg hn]
      rcases h2 : consolidate_themes_second_pass_batched (m.map Prod.fst) m 50 rs with ⟨o, rest⟩
      rcases o with _ | fc
      · simp
      · dsimp only
        split <;> simp
  · rw [if_neg hl]
    simp

theorem afterFirstPass_none_iff (m : ThemeMap) (rs : List BatchResp) :
    consolidateAfterFirstPass m rs = none ↔ m = [] := by
  constructor
  · intro h
    by_contra hm
    exact afterFirstPass_ne_none m rs hm h
  · intro h
    subst h
    rfl

theorem afterFirstPass_perm (m : ThemeMap) (rs : List BatchResp) (target : List String)
    (hm : m ≠ []) (hperm : (m.flatMap Prod.snd).Perm target)
    (hnodup : (m.map Prod.fst).Nodup) (hsize : m.length ≤ 200)
    (hsp : ∀ sp, rs.head? = some (BatchResp.dict sp) →
      (sp.map Prod.fst).Nodup ∧ (sp.flatMap Prod.snd).Perm (m.map Prod.fst)) :
    ∃ out, consolidateAfterFirstPass m rs = some out ∧ (out.flatMap Prod.snd).Perm target := by
  rw [consolidateAfterFirstPass, if_neg (by simpa [List.isEmpty_iff] using hm)]
  by_cases hl : 1 < m.length
  · rw [if_pos hl]
    dsimp only
    rw [if_pos (by simpa using hsize)]
    cases rs with
    | nil => exact ⟨m, rfl, hperm⟩
    | cons r rest =>
      rcases r with _ | _ | sp
      · exact ⟨m, rfl, hperm⟩
      · exact ⟨m, rfl, hperm⟩
      · rcases hsp sp rfl with ⟨hspnd, hspperm⟩
        rw [secondPass_dict_eq m sp rest (m.map Prod.fst) hspnd]
        have hfcperm : ((sp.map (fun p =>
            (p.1, p.2.flatMap (fun t => (alookup t m).getD [])))).flatMap Prod.snd).Perm
              (m.flatMap Prod.snd) := by
          have h1 : (sp.map (fun p =>
              (p.1, p.2.flatMap (fun t => (alookup t m).getD [])))).flatMap Prod.snd =
              (sp.flatMap Prod.snd).flatMap (fun t => (alookup t m).getD []) := by
            rw [List.flatMap_map]
            exact (List.flatMap_assoc sp Prod.snd (fun t => (alookup t m).getD [])).symm
          rw [h1, ← flatMap_alookup_keys m hnodup]
          exact hspperm.flatMap_right (fun t => (alookup t m).getD [])
        dsimp only
        by_cases hfc : (sp.map (fun p =>
            (p.1, p.2.flatMap (fun t => (alookup t m).getD [])))).isEmpty
        · exact ⟨m, by rw [if_pos hfc], hperm⟩
        · exact ⟨_, by rw [if_neg hfc], hfcperm.trans hperm⟩
  · rw [if_neg hl]
    exact ⟨m, rfl, hperm⟩

/-! ## Claims C1 and C3 — theme consolidation -/

/-- Counterexample to C1 as stated: the partition property is quantified over
all provider batch responses, but a response may drop a label. Here the input
is `["a", "b"]` (not truncated: `max_domains = 200`), the single batch's
response maps only `"a"`, and the returned mapping omits `"b"` entirely. -/
theorem C1_counterexample :
    consolidate_themes_with_gemini [BatchResp.dict [("T", ["a"])]] ["a", "b"] 50 200 =
      some [("T", ["a"])] ∧
    "b" ∈ (["a", "b"].take 200) ∧
    ¬("b" ∈ ([("T", ["a"])] : ThemeMap).flatMap Prod.snd) := by
  refine ⟨by decide, by decide, by decide⟩

/-- C1 (amended): the output of `consolidate_themes_with_gemini` is a
partition of the `max_domains`-bounded input provided the provider responses
are well-formed: one dict response per batch whose value lists partition that
batch, with theme names distinct within and across batches (a repeated name
would be overwritten by `dict.update`), at most 200 first-pass themes, and a
second-pass response that either fails or is a dict with distinct keys whose
value lists partition the first-pass theme names. Under these hypotheses the
run succeeds and the concatenation of the returned value lists is a
permutation of the bounded input — every bounded input label lands in exactly
one value list. -/
theorem C1_partition_amended (domain_list : List String) (batch_size max_domains : Nat)
    (maps : List ThemeMap) (rest : List BatchResp)
    (hdl : domain_list.isEmpty = false)
    (hbs : 0 < batch_size) (hmd : 0 < max_domains)
    (hlen : (chunks batch_size (domain_list.take max_domains)).length = maps.length)
    (hcover : List.Forall₂ (fun (m : ThemeMap) (batch : List String) =>
        (m.flatMap Prod.snd).Perm batch) maps (chunks batch_size (domain_list.take max_domains)))
    (hkeys : (maps.flatMap (fun m => m.map Prod.fst)).Nodup)
    (hsize : maps.flatten.length ≤ 200)
    (hsp : ∀ sp, rest.head? = some (BatchResp.dict sp) →
        (sp.map Prod.fst).Nodup ∧
          (sp.flatMap Prod.snd).Perm (maps.flatten.map Prod.fst)) :
    ∃ out, consolidate_themes_with_gemini (maps.map BatchResp.dict ++ rest)
        domain_list batch_size max_domains = some out ∧
      (out.flatMap Prod.snd).Perm (domain_list.take max_domains) := by
  have hdlne : domain_list.take max_domains ≠ [] := by
    rcases domain_list with _ | ⟨x, xs⟩
    · simp at hdl
    · rcases max_domains with _ | md
      · exact absurd hmd (by omega)
      · simp
  rw [consolidate_eq _ _ _ _ hdl]
  rw [firstPassGo_dicts _ maps rest [] hlen]
  have hfold : maps.foldl dictUpdate [] = maps.flatten := by
    have h := foldl_dictUpdate_of_nodup maps [] (by simpa using hkeys)
    simpa using h
  rw [hfold]
  have hkeys2 : (maps.flatten.map Prod.fst).Nodup := by
    have h : maps.flatten.map Prod.fst = maps.flatMap (fun m => m.map Prod.fst) := by
      rw [List.map_flatten, List.flatMap_def]
    rw [h]
    exact hkeys
  have haccperm : (maps.flatten.flatMap Prod.snd).Perm (domain_list.take max_domains) := by
    rw [flatten_flatMap]
    have h1 : List.Forall₂ (fun (a b : List String) => a.Perm b)
        (maps.map (fun m => m.flatMap Prod.snd))
        (chunks batch_size (domain_list.take max_domains)) := by
      rw [List.forall₂_map_left_iff]
      exact hcover
    have h2 := List.Perm.flatten_congr h1
    rw [chunks_flatten batch_size hbs] at h2
    rw [List.flatMap_def]
    exact h2
  have haccne : maps.flatten ≠ [] := by
    intro h
    apply hdlne
    rw [h] at haccperm
    exact List.Perm.eq_nil haccperm.symm
  exact afterFirstPass_perm maps.flatten rest _ haccne haccperm hkeys2 hsize hsp

/-- Witness for C1 (amended): two size-2/1 batches mapped to fresh themes
`T1`, `T2` (each a permutation of its batch), then a second-pass response
merging both into `T`; the result is a permutation of the bounded input. -/
theorem C1_partition_amended_witness :
    ((["a", "b", "c"] : List String).isEmpty = false) ∧
    (chunks 2 (["a", "b", "c"].take 200)).length =
      ([[("T1", ["b", "a"])], [("T2", ["c"])]] : List ThemeMap).length ∧
    (([[("T1", ["b", "a"])], [("T2", ["c"])]] : List ThemeMap).flatMap
      (fun m => m.map Prod.fst)).Nodup ∧
    (∃ out, consolidate_themes_with_gemini
        (([[("T1", ["b", "a"])], [("T2", ["c"])]] : List ThemeMap).map BatchResp.dict ++
          [BatchResp.dict [("T", ["T2", "T1"])]])
        ["a", "b", "c"] 2 200 = some out ∧
      (out.flatMap Prod.snd).Perm (["a", "b", "c"].take 200)) :=
  ⟨by decide, by decide, by decide,
    C1_partition_amended ["a", "b", "c"] 2 200 [[("T1", ["b", "a"])], [("T2", ["c"])]]
      [BatchResp.dict [("T", ["T2", "T1"])]]
      (by decide) (by decide) (by decide) (by decide)
      (by refine List.Forall₂.cons (by decide) (List.Forall₂.cons (by decide) List.Forall₂.nil))
      (by decide) (by decide)
      (by
        intro sp hsp
        simp only [List.head?] at hsp
        injection hsp with h1
        injection h1 with h2
        subst h2
        exact ⟨by decide, by decide⟩)⟩

/-- Counterexample to C3 as stated: a single batch whose response parses to a
mapping — the empty JSON object — does not fail, yet the run returns `None`
(the accumulated mapping is empty even though no batch failed). -/
theorem C3_counterexample :
    consolidate_themes_with_gemini [BatchResp.dict []] ["a"] 50 200 = none ∧
    [BatchResp.dict []].get? 0 = some (BatchResp.dict []) ∧
    (∀ r ∈ [BatchResp.dict []], r ≠ BatchResp.fail ∧ r ≠ BatchResp.nonDict) := by
  refine ⟨by decide, by decide, by decide⟩

/-- C3 (amended): a batch whose provider call fails or whose response does
not parse to a mapping is skipped and does not abort the run: the run returns
`None` exactly when the input is empty or the first pass accumulates an empty
mapping (every batch failed, returned a non-dict, or returned an empty
mapping); in particular a batch whose response is a non-empty dict forces a
non-`None` result, and with three batches of which the first and third
succeed (second-pass response failing), the function returns the
`dict.update` merge of the two successful batch maps. -/
theorem C3_batch_failure_amended :
    (∀ (rs : List BatchResp) (dl : List String) (bs md : Nat),
      consolidate_themes_with_gemini rs dl bs md = none ↔
        (dl.isEmpty = true ∨ (firstPassGo [] (chunks bs (dl.take md)) rs).1 = [])) ∧
    (∀ (rs : List BatchResp) (dl : List String) (bs md i : Nat) (m : ThemeMap),
      dl.isEmpty = false → i < (chunks bs (dl.take md)).length →
      rs.get? i = some (BatchResp.dict m) → m ≠ [] →
        consolidate_themes_with_gemini rs dl bs md ≠ none) ∧
    consolidate_themes_with_gemini
      [BatchResp.dict [("T1", ["a"])], BatchResp.fail, BatchResp.dict [("T2", ["c"])],
        BatchResp.fail] ["a", "b", "c"] 1 200 = some [("T1", ["a"]), ("T2", ["c"])] := by
  have hmain : ∀ (rs : List BatchResp) (dl : List String) (bs md : Nat),
      consolidate_themes_with_gemini rs dl bs md = none ↔
        (dl.isEmpty = true ∨ (firstPassGo [] (chunks bs (dl.take md)) rs).1 = []) := by
    intro rs dl bs md
    by_cases hdl : dl.isEmpty = true
    · constructor
      · intro _
        exact Or.inl hdl
      · intro _
        unfold consolidate_themes_with_gemini
        rw [if_pos hdl]
    · have hdl2 : dl.isEmpty = false := by simpa using hdl
      rw [consolidate_eq rs dl bs md hdl2, afterFirstPass_none_iff, hdl2]
      simp
  refine ⟨hmain, ?_, by decide⟩
  intro rs dl bs md i m hdl hi hresp hm hnone
  rcases (hmain rs dl bs md).mp hnone with h | h
  · rw [hdl] at h
    exact absurd h (by simp)
  · exact hm (firstPassGo_nil_resp _ rs [] h i hi m hresp)

/-- Witness for C3 (amended): a run with three size-1 batches whose first
response is a non-empty dict cannot return `None`. -/
theorem C3_batch_failure_amended_witness :
    ((["a", "b", "c"] : List String).isEmpty = false) ∧
    (0 < (chunks 1 (["a", "b", "c"].take 200)).length) ∧
    ([BatchResp.dict [("T1", ["a"])], BatchResp.fail, BatchResp.dict [("T2", ["c"])],
        BatchResp.fail].get? 0 = some (BatchResp.dict [("T1", ["a"])])) ∧
    (([("T1", ["a"])] : ThemeMap) ≠ []) ∧
    consolidate_themes_with_gemini
        [BatchResp.dict [("T1", ["a"])], BatchResp.fail, BatchResp.dict [("T2", ["c"])],
          BatchResp.fail] ["a", "b", "c"] 1 200 ≠ none :=
  ⟨by decide, by decide, by decide, by decide,
    C3_batch_failure_amended.2.1
      [BatchResp.dict [("T1", ["a"])], BatchResp.fail, BatchResp.dict [("T2", ["c"])],
        BatchResp.fail] ["a", "b", "c"] 1 200 0 [("T1", ["a"])]
      (by decide) (by decide) (by decide) (by decide)⟩

/-! ## Themed opportunity creation (`src/orchestrator.py`,
`find_and_create_themed_opportunities`, lines 248–355)

The two provider calls are modelled by their parsed results
(`summarize_common_pain_point` via a scripted response, the opportunity
identification likewise); the Supabase insert by an `InsertOutcome`. The
function's observable effect is its return value plus the ordered list of
database writes it issues. -/

/-- A parsed thematic-analysis response. -/
structure ThemeAnalysis where
  theme_title : Option String
  consolidated_problem_summary : Option String
deriving DecidableEq, Repr

/-- The parsed empty object `{}` (no modeled key present). -/
def ThemeAnalysis.empty : ThemeAnalysis :=
  ⟨none, none⟩

/-- Python truthiness of an optional thematic-analysis dict: `None` and the
parsed empty object are falsy (`if not theme_analysis:`, line 257). -/
def taTruthy : Option ThemeAnalysis → Bool
  | none => false
  | some ta => if ta = ThemeAnalysis.empty then false else true

/-- A parsed opportunity-identification response. -/
structure OppDetails where
  opportunity_title : Option String
  opportunity_description : Option String
  target_user : Option String
  value_proposition : Option String
  domain_relevance : Option String
deriving DecidableEq, Repr

/-- The parsed empty object `{}` (no modeled key present). -/
def OppDetails.empty : OppDetails :=
  ⟨none, none, none, none, none⟩

/-- Python truthiness of optional opportunity details: `None` and the parsed
empty object are falsy (`if not opportunity_details:`, line 270). -/
def odTruthy : Option OppDetails → Bool
  | none => false
  | some od => if od = OppDetails.empty then false else true

/-- Python truthiness of a stored enhanced analysis: `None` and the empty
dict are falsy (`if lead.get('enhanced_analysis'):`, line 283). -/
def anaTruthy : Option Analysis → Bool
  | none => false
  | some a => if a = Analysis.empty then false else true

/-- `summarize_common_pain_point` (theme_analyzer lines 9–51): an empty
summaries list short-circuits to `None` before any call; otherwise the parsed
response (or `None` on any exception or parse failure) is returned. -/
def summarize_common_pain_point (resp : Option ThemeAnalysis) (domain : String)
    (summaries : List (Option String)) : Option ThemeAnalysis :=
  if summaries.isEmpty then none else resp

/-- `identify_opportunity_with_gemini` (opportunity_analyzer lines 9–48): a
falsy `problem_summary` or `problem_domain` short-circuits to `None`;
otherwise the parsed response (or `None` on failure) is returned. -/
def identify_opportunity_with_gemini (resp : Option OppDetails)
    (problem_summary : Option String) (problem_domain : String) : Option OppDetails :=
  if strTruthy problem_summary = false ∨ problem_domain = "" then none else resp

/-- A `raw_leads` row as fetched for the theming stage. -/
structure DbLead where
  id : Nat
  gemini_problem_summary : Option String
  gemini_problem_domain : Option String
  gemini_frustration_level : Option String
  gemini_saas_potential_flag : Option String
  enhanced_analysis : Option Analysis
  permalink : Option String
  body_text : Option String
  title : Option String
  subreddit : Option String
  author : Option String
  is_comment : Option Bool

/-- The `opportunities` row assembled at lines 320–337. The three
evidence-derived fields are present only when evidence was aggregated. -/
structure OppData where
  based_on_lead_ids : List Nat
  title : Option String
  problem_summary_consolidated : Option String
  opportunity_description_ai : Option String
  target_user_ai : Option String
  value_proposition_ai : Option String
  domain_relevance_ai : Option String
  status : String
  evidence_json : Option Evidence
  total_posts_analyzed : Option Nat
  pain_point_frequency : Option Nat

/-- One database write issued by the function. -/
inductive DbWrite where
  | insertOpportunity (data : OppData)
  | updateLeads (ids : List Nat) (status : String)

/-- Outcome of the `opportunities` insert: success with a generated id, a
response with no data, or an exception (modelled as raised by the insert
statement itself, before any further write). -/
inductive InsertOutcome where
  | ok (id : Nat)
  | noData
  | exn
deriving DecidableEq, Repr

/-- The `USE_ENHANCED_EXTRACTION` toggle (orchestrator line 27). -/
def USE_ENHANCED_EXTRACTION : Bool := true

/-- The per-lead conversion to the aggregator's input shape (orchestrator
lines 282–310): prefer the stored enhanced analysis; fall back to the flat
`gemini_*` fields (with an empty quotes list and empty financial dict) when
only those exist; drop the lead otherwise. -/
def toAggLead (l : DbLead) : Option AggLead :=
  if anaTruthy l.enhanced_analysis then
    some { permalink := some (l.permalink.getD ""), content := some (l.body_text.getD ""),
           title := some (l.title.getD "Untitled"), subreddit := some (l.subreddit.getD "unknown"),
           author := some (l.author.getD "[deleted]"),
           is_comment := some (l.is_comment.getD false),
           analysis := l.enhanced_analysis }
  else if strTruthy l.gemini_problem_summary then
    some { permalink := some (l.permalink.getD ""), content := some (l.body_text.getD ""),
           title := some (l.title.getD "Untitled"), subreddit := some (l.subreddit.getD "unknown"),
           author := some (l.author.getD "[deleted]"),
           is_comment := some (l.is_comment.getD false),
           analysis := some
             { problem_summary := l.gemini_problem_summary,
               problem_domain := l.gemini_problem_domain,
               urgency_level := some (l.gemini_frustration_level.getD "Low"),
               supporting_quotes := some [],
               financial_indicators := none,
               saas_potential_flag := some (l.gemini_saas_potential_flag.getD "Uncertain"),
               source_url := none } }
  else none

/-- `find_and_create_themed_opportunities` (lines 248–355) as a function from
the scripted call results to the return value and the ordered database
writes. Key trace facts from the source: when the thematic summary is falsy
(`None` or a parsed empty object, `if not theme_analysis:`) the function
returns `None` with NO writes (lines 257–259); when the opportunity details
are falsy (`if not opportunity_details:`) it marks the member leads
`thematic_analysis_failed` (lines 270–275); on a successful insert it marks
them `opportunity_created`;
on an insert response without data it returns `None` with no lead update; on
an exception it marks them `thematic_analysis_failed` (lines 351–355). -/
def find_and_create_themed_opportunities (summarizeResp : Option ThemeAnalysis)
    (identifyResp : Option OppDetails) (insertOutcome : InsertOutcome)
    (theme_name : String) (leads : List DbLead) : Option Nat × List DbWrite :=
  let summaries := leads.map (fun l => l.gemini_problem_summary)
  let theme_analysis := summarize_common_pain_point summarizeResp theme_name summaries
  if taTruthy theme_analysis = false then (none, [])
  else
    let ta := theme_analysis.getD ThemeAnalysis.empty
    let opportunity_details := identify_opportunity_with_gemini identifyResp
        ta.consolidated_problem_summary theme_name
    if odTruthy opportunity_details = false then
      (none, [DbWrite.updateLeads (leads.map (fun l => l.id)) "thematic_analysis_failed"])
    else
      let od := opportunity_details.getD OppDetails.empty
      let evidence_data : Option Evidence :=
        if USE_ENHANCED_EXTRACTION then
          let leads_with_analysis := leads.filterMap toAggLead
          if leads_with_analysis.isEmpty then none
          else some (aggregate_evidence_for_opportunity leads_with_analysis)
        else none
      let lead_ids := leads.map (fun l => l.id)
      let opportunity_data : OppData :=
        { based_on_lead_ids := lead_ids,
          title := od.opportunity_title,
          problem_summary_consolidated := ta.consolidated_problem_summary,
          opportunity_description_ai := od.opportunity_description,
          target_user_ai := od.target_user,
          value_proposition_ai := od.value_proposition,
          domain_relevance_ai := od.domain_relevance,
          status := "opportunity_defined",
          evidence_json := evidence_data,
          total_posts_analyzed := evidence_data.map (fun e => e.total_posts_analyzed),
          pain_point_frequency := evidence_data.map (fun e => e.pain_point_frequency) }
      match insertOutcome with
      | InsertOutcome.ok oid =>
        (some oid, [DbWrite.insertOpportunity opportunity_data,
          DbWrite.updateLeads lead_ids "opportunity_created"])
      | InsertOutcome.noData =>
        (none, [DbWrite.insertOpportunity opportunity_data])
      | InsertOutcome.exn =>
        (none, [DbWrite.updateLeads lead_ids "thematic_analysis_failed"])

/-! ## Claim C2 -/

/-- A lead row with flat extraction fields, used in the C2 statements. -/
def c2Lead : DbLead :=
  { id := 1, gemini_problem_summary := some "Cannot find clients",
    gemini_problem_domain := some "Freelancing", gemini_frustration_level := some "High",
    gemini_saas_potential_flag := some "Yes", enhanced_analysis := none,
    permalink := some "/r/f/1", body_text := some "b", title := some "t",
    subreddit := some "f", author := some "a", is_comment := some false }

/-- Counterexample to C2 as stated: when the thematic summarization returns
no result — the call fails (`None`) or parses to the falsy empty object —
`find_and_create_themed_opportunities` aborts with `None` but issues NO
database write at all: the member leads are not marked
`thematic_analysis_failed` (orchestrator lines 257–259 just return). -/
theorem C2_counterexample :
    find_and_create_themed_opportunities none
        (some ⟨some "t", some "d", some "u", some "v", some "r"⟩)
        (InsertOutcome.ok 7) "Client Acquisition" [c2Lead] = (none, []) ∧
    find_and_create_themed_opportunities (some ThemeAnalysis.empty)
        (some ⟨some "t", some "d", some "u", some "v", some "r"⟩)
        (InsertOutcome.ok 7) "Client Acquisition" [c2Lead] = (none, []) ∧
    ¬(DbWrite.updateLeads [1] "thematic_analysis_failed" ∈
        (find_and_create_themed_opportunities none
          (some ⟨some "t", some "d", some "u", some "v", some "r"⟩)
          (InsertOutcome.ok 7) "Client Acquisition" [c2Lead]).2) := by
  refine ⟨rfl, rfl, ?_⟩
  intro hmem
  rw [show (find_and_create_themed_opportunities none
      (some ⟨some "t", some "d", some "u", some "v", some "r"⟩)
      (InsertOutcome.ok 7) "Client Acquisition" [c2Lead]).2 = ([] : List DbWrite) from rfl] at hmem
  exact List.not_mem_nil _ hmem

/-- C2 (amended): when the thematic-summarization call for a theme returns no
result — the call fails (`None`) or parses to the falsy empty object — or the
theme has no member leads, opportunity creation for the theme is aborted with
`None` and no lead status update is issued: the leads keep their previous
status and remain eligible for reprocessing. The `thematic_analysis_failed`
marking happens instead when the opportunity-identification result is falsy
(no result or the empty object). -/
theorem C2_summarize_failure_amended (summarizeResp : Option ThemeAnalysis)
    (identifyResp : Option OppDetails) (io : InsertOutcome) (tn : String)
    (leads : List DbLead) :
    ((summarizeResp = none ∨ summarizeResp = some ThemeAnalysis.empty ∨ leads = []) →
      find_and_create_themed_opportunities summarizeResp identifyResp io tn leads =
        (none, [])) ∧
    (∀ ta, summarizeResp = some ta → ta ≠ ThemeAnalysis.empty → leads ≠ [] →
      odTruthy (identify_opportunity_with_gemini identifyResp
        ta.consolidated_problem_summary tn) = false →
      find_and_create_themed_opportunities summarizeResp identifyResp io tn leads =
        (none, [DbWrite.updateLeads (leads.map (fun l => l.id)) "thematic_analysis_failed"])) := by
  constructor
  · intro h
    have htt : taTruthy (summarize_common_pain_point summarizeResp tn
        (leads.map (fun l => l.gemini_problem_summary))) = false := by
      rcases h with h | h | h
      · subst h
        rw [summarize_common_pain_point]
        split <;> rfl
      · subst h
        rw [summarize_common_pain_point]
        split
        · rfl
        · decide
      · subst h
        rfl
    simp only [find_and_create_themed_opportunities]
    rw [if_pos htt]
  · intro ta hta htane hleads hodf
    subst hta
    have hs : summarize_common_pain_point (some ta) tn
        (leads.map (fun l => l.gemini_problem_summary)) = some ta := by
      rw [summarize_common_pain_point, if_neg]
      simp only [List.isEmpty_iff, List.map_eq_nil_iff]
      exact hleads
    have htt : ¬(taTruthy (some ta) = false) := by
      intro hf
      apply htane
      rw [taTruthy] at hf
      by_contra hne
      rw [if_neg hne] at hf
      exact Bool.noConfusion hf
    simp only [find_and_create_themed_opportunities]
    rw [hs, if_neg htt]
    simp only [Option.getD_some]
    rw [if_pos hodf]

/-- Witness for C2 (amended): with a parsed non-empty thematic summary, one
member lead, and a failing opportunity-identification call, the function
returns `None` and exactly one write marking the lead
`thematic_analysis_failed`. -/
theorem C2_summarize_failure_amended_witness :
    ((some (⟨some "T", some "S"⟩ : ThemeAnalysis) :
        Option ThemeAnalysis) = some ⟨some "T", some "S"⟩) ∧
    ((⟨some "T", some "S"⟩ : ThemeAnalysis) ≠ ThemeAnalysis.empty) ∧
    (([c2Lead] : List DbLead) ≠ []) ∧
    (odTruthy (identify_opportunity_with_gemini none
      (ThemeAnalysis.consolidated_problem_summary ⟨some "T", some "S"⟩) "Theme") = false) ∧
    find_and_create_themed_opportunities (some ⟨some "T", some "S"⟩) none
        (InsertOutcome.ok 7) "Theme" [c2Lead] =
      (none, [DbWrite.updateLeads [1] "thematic_analysis_failed"]) :=
  ⟨rfl, by decide, by simp, by decide,
    (C2_summarize_failure_amended (some ⟨some "T", some "S"⟩) none (InsertOutcome.ok 7)
      "Theme" [c2Lead]).2 ⟨some "T", some "S"⟩ rfl (by decide) (by simp) (by decide)⟩

end PicoPitch
